import Mathlib

/-!
Verification of the mpx-scan core engine (src/index.js, src/scanners/ssl.js,
src/scanners/exposed-files.js) against its natural-language specification.

Numbers are modelled as exact rationals; a probe invocation's outcome is
modelled as `Except String ProbeResult` (`.error msg` covers both a thrown
exception and a timeout rejection of the race in the orchestrator);
network events seen by the connectivity preflight are modelled by `ReqEvent`.
-/

namespace MpxScan

/-- A single finding, as pushed onto the `checks` arrays by the scanners. -/
structure Check where
  name : String
  status : String
  message : String
  value : Option String := none
deriving DecidableEq, Repr

/-- What a scanner's `run` returns: `{ score, maxScore, checks }`. -/
structure ProbeResult where
  score : ℚ
  maxScore : ℚ
  checks : List Check
deriving DecidableEq, Repr

/-- One entry of `results.sections` in src/index.js. -/
structure ScanSection where
  score : ℚ
  maxScore : ℚ
  grade : String
  checks : List Check
deriving DecidableEq, Repr

/-- The `results.summary` counters of src/index.js. -/
structure Summary where
  passed : Nat
  warnings : Nat
  failed : Nat
  info : Nat
deriving DecidableEq, Repr

/-- The report built by `scan` in src/index.js (the fields the claims are
about; url/hostname/timestamps are outside the model). Sections are kept as
an association list in insertion order. -/
structure Report where
  sections : List (String × ScanSection)
  score : ℚ
  maxScore : ℚ
  grade : String
  summary : Summary
deriving DecidableEq, Repr

/-- `allScanners` of src/index.js: name and declared weight. -/
def allScanners : List (String × ℚ) :=
  [("headers", 15), ("ssl", 20), ("cookies", 10), ("server", 8),
   ("exposedFiles", 10), ("dns", 7), ("sri", 5), ("mixedContent", 5),
   ("redirects", 5)]

/-- `SCANNER_TIERS.free` of src/index.js. -/
def freeTier : List String := ["headers", "ssl", "server"]

/-- `SCANNER_TIERS.pro` of src/index.js. -/
def proTier : List String :=
  ["headers", "ssl", "cookies", "server", "exposedFiles", "dns", "sri",
   "mixedContent", "redirects"]

/-- `SCANNER_TIERS[tier] || SCANNER_TIERS.free` of src/index.js. -/
def tierScanners (tier : String) : List String :=
  if tier == "free" then freeTier
  else if tier == "pro" then proTier
  else freeTier

/-- `enabledScanners` of src/index.js: `options.full` forces the pro set,
otherwise the tier's set; then `allScanners` is filtered by name. -/
def enabledScanners (tier : String) (full : Bool) : List (String × ℚ) :=
  let allowed := if full then proTier else tierScanners tier
  allScanners.filter (fun s => allowed.contains s.1)

/-- JavaScript `Math.round` on an exact rational. -/
def jsRound (q : ℚ) : ℤ := ⌊q + 1/2⌋

/-- `Math.round(x * 10) / 10` — the one-decimal display rounding. -/
def round1 (q : ℚ) : ℚ := (jsRound (q * 10) : ℚ) / 10

/-- `calculateGrade` of src/index.js. -/
def calculateGrade (r : ℚ) : String :=
  if r ≥ 95/100 then "A+"
  else if r ≥ 85/100 then "A"
  else if r ≥ 70/100 then "B"
  else if r ≥ 55/100 then "C"
  else if r ≥ 40/100 then "D"
  else "F"

/-- `scoreToPercentage` of src/index.js. -/
def scoreToPercentage (score maxScore : ℚ) : ℤ :=
  if maxScore = 0 then 0 else jsRound (score / maxScore * 100)

/-- The catch branch of the per-scanner promise in `scan` (src/index.js):
a scanner that throws or times out is converted into a zero-scored result
with a single error check. -/
def settleScanner (s : String × ℚ) (outcome : Except String ProbeResult) :
    ProbeResult :=
  match outcome with
  | .ok r => r
  | .error msg =>
      { score := 0, maxScore := s.2,
        checks := [{ name := s.1 ++ " scan", status := "error",
                     message := msg }] }

/-- `result.maxScore > 0 ? (result.score / result.maxScore) * weight : 0`. -/
def normalizedScore (w : ℚ) (r : ProbeResult) : ℚ :=
  if r.maxScore > 0 then r.score / r.maxScore * w else 0

/-- One entry of `results.sections[name]` in src/index.js. -/
def mkSection (w : ℚ) (r : ProbeResult) : ScanSection :=
  { score := round1 (normalizedScore w r),
    maxScore := w,
    grade := calculateGrade (normalizedScore w r / w),
    checks := r.checks }

/-- Count the checks carrying one concrete status string (the summary
counting loop of src/index.js). -/
def countStatus (st : String) (l : List Check) : Nat :=
  l.countP (fun c => c.status == st)

/-- The aggregation part of `scan` in src/index.js, parameterised by the
outcome of each enabled scanner's run (keyed by scanner name). -/
def scan (tier : String) (full : Bool)
    (outcomes : String → Except String ProbeResult) : Report :=
  let enabled := enabledScanners tier full
  let settled := enabled.map (fun s => (s, settleScanner s (outcomes s.1)))
  let totalScore := (settled.map (fun p => normalizedScore p.1.2 p.2)).sum
  let totalMax := (settled.map (fun p => p.1.2)).sum
  let allChecks := (settled.map (fun p => p.2.checks)).flatten
  { sections := settled.map (fun p => (p.1.1, mkSection p.1.2 p.2)),
    score := round1 totalScore,
    maxScore := totalMax,
    grade := calculateGrade (totalScore / totalMax),
    summary := { passed := countStatus "pass" allChecks,
                 warnings := countStatus "warn" allChecks,
                 failed := countStatus "fail" allChecks,
                 info := countStatus "info" allChecks } }

/-- The three ways the preflight request in `checkConnectivity`
(src/index.js) can settle: a response arrived, the request emitted an
error with a Node error code, or a timeout fired. -/
inductive ReqEvent where
  | response : ReqEvent
  | reqError : String → ReqEvent
  | reqTimeout : ReqEvent
deriving DecidableEq, Repr

/-- The error codes `checkConnectivity` treats as fatal. -/
def fatalCodes : List String :=
  ["ENOTFOUND", "EAI_AGAIN", "ECONNREFUSED", "ETIMEDOUT", "ECONNRESET"]

/-- `checkConnectivity` of src/index.js: resolves on any response, rejects
on a low-level connection error code or a timeout, resolves on every other
request error. -/
def checkConnectivity (ev : ReqEvent) : Except String Unit :=
  match ev with
  | .response => .ok ()
  | .reqError code =>
      if fatalCodes.contains code then .error code else .ok ()
  | .reqTimeout => .error "ETIMEDOUT"

/-- `scan` of src/index.js including the awaited pre-scan connectivity
check: a fatal preflight error propagates before any report is built. -/
def scanWithConnectivity (ev : ReqEvent) (tier : String) (full : Bool)
    (outcomes : String → Except String ProbeResult) : Except String Report :=
  match checkConnectivity ev with
  | .error c => .error c
  | .ok _ => .ok (scan tier full outcomes)


/-! ### Helper lemmas about the orchestrator -/

/-- The free-tier enabled set, as `allScanners` filtered by `freeTier`. -/
def freeEnabled : List (String × ℚ) := [("headers", 15), ("ssl", 20), ("server", 8)]

lemma tierScanners_cases (tier : String) :
    tierScanners tier = freeTier ∨ tierScanners tier = proTier := by
  unfold tierScanners
  by_cases h1 : tier == "free"
  · rw [if_pos h1]; left; rfl
  · rw [if_neg h1]
    by_cases h2 : tier == "pro"
    · rw [if_pos h2]; right; rfl
    · rw [if_neg h2]; left; rfl

lemma enabled_cases (tier : String) (full : Bool) :
    enabledScanners tier full = freeEnabled ∨ enabledScanners tier full = allScanners := by
  cases full with
  | true =>
    right
    show allScanners.filter (fun s => proTier.contains s.1) = allScanners
    decide
  | false =>
    have ht : enabledScanners tier false
        = allScanners.filter (fun s => (tierScanners tier).contains s.1) := rfl
    rcases tierScanners_cases tier with h | h
    · left; rw [ht, h]; decide
    · right; rw [ht, h]; decide

lemma enabled_keys_nodup (tier : String) (full : Bool) :
    ((enabledScanners tier full).map Prod.fst).Nodup := by
  rcases enabled_cases tier full with h | h <;> rw [h] <;> decide

lemma scan_sections (tier : String) (full : Bool) (o : String → Except String ProbeResult) :
    (scan tier full o).sections
      = (enabledScanners tier full).map
          (fun s => (s.1, mkSection s.2 (settleScanner s (o s.1)))) := by
  simp [scan, List.map_map]

lemma scan_maxScore (tier : String) (full : Bool) (o : String → Except String ProbeResult) :
    (scan tier full o).maxScore = ((enabledScanners tier full).map (fun s => s.2)).sum := by
  simp [scan, List.map_map]; rfl

lemma scan_grade (tier : String) (full : Bool) (o : String → Except String ProbeResult) :
    (scan tier full o).grade
      = calculateGrade
          ((((enabledScanners tier full).map
              (fun s => normalizedScore s.2 (settleScanner s (o s.1)))).sum)
            / (((enabledScanners tier full).map (fun s => s.2)).sum)) := by
  simp [scan, List.map_map]; rfl

/-- All findings of a report, sections concatenated in order. -/
def allFindings (rep : Report) : List Check :=
  (rep.sections.map (fun e => e.2.checks)).flatten

lemma allFindings_scan (tier : String) (full : Bool) (o : String → Except String ProbeResult) :
    allFindings (scan tier full o)
      = ((enabledScanners tier full).map
          (fun s => (settleScanner s (o s.1)).checks)).flatten := by
  simp [allFindings, scan_sections, List.map_map, mkSection]; rfl

lemma scan_summary (tier : String) (full : Bool) (o : String → Except String ProbeResult) :
    (scan tier full o).summary
      = { passed := countStatus "pass" (allFindings (scan tier full o)),
          warnings := countStatus "warn" (allFindings (scan tier full o)),
          failed := countStatus "fail" (allFindings (scan tier full o)),
          info := countStatus "info" (allFindings (scan tier full o)) } := by
  rw [allFindings_scan]
  simp only [scan, List.map_map]
  rfl

/-! ### C2: composite maximum and section keys -/

/-- Claim C2: for every tier / full-override selection, the composite
`maxScore` is exactly the sum of the enabled probes' declared weights, and
the sections map has exactly one entry per enabled probe, in order and
without duplicates; in particular the free set has composite max 43 and the
pro/full set 85. -/
theorem scan_composite_max_sections (tier : String) (full : Bool)
    (o : String → Except String ProbeResult) :
    (scan tier full o).maxScore = ((enabledScanners tier full).map (fun s => s.2)).sum
    ∧ (scan tier full o).sections.map Prod.fst = (enabledScanners tier full).map Prod.fst
    ∧ ((scan tier full o).sections.map Prod.fst).Nodup
    ∧ ((freeEnabled.map (fun s => s.2)).sum = 43 ∧ (allScanners.map (fun s => s.2)).sum = 85) := by
  refine ⟨scan_maxScore tier full o, ?_, ?_, by norm_num [freeEnabled, allScanners]⟩
  · rw [scan_sections]; simp [List.map_map]
  · rw [scan_sections]; simp only [List.map_map]
    have h := enabled_keys_nodup tier full
    simpa [List.map_map, Function.comp] using h

/-! ### C3: grade thresholds -/

/-- Claim C3: `calculateGrade` is the pure threshold function of the
score/max ratio (≥0.95 → A+, ≥0.85 → A, ≥0.70 → B, ≥0.55 → C, ≥0.40 → D,
else F), applied identically per section and at composite level, with the
seven quoted sample values. -/
theorem calculateGrade_thresholds :
    (∀ r : ℚ,
      (95/100 ≤ r → calculateGrade r = "A+")
      ∧ (85/100 ≤ r → r < 95/100 → calculateGrade r = "A")
      ∧ (70/100 ≤ r → r < 85/100 → calculateGrade r = "B")
      ∧ (55/100 ≤ r → r < 70/100 → calculateGrade r = "C")
      ∧ (40/100 ≤ r → r < 55/100 → calculateGrade r = "D")
      ∧ (r < 40/100 → calculateGrade r = "F"))
    ∧ (∀ (w : ℚ) (pr : ProbeResult),
        (mkSection w pr).grade = calculateGrade (normalizedScore w pr / w))
    ∧ (∀ tier full o, (scan tier full o).grade
        = calculateGrade
            ((((enabledScanners tier full).map
                (fun s => normalizedScore s.2 (settleScanner s (o s.1)))).sum)
              / (((enabledScanners tier full).map (fun s => s.2)).sum)))
    ∧ calculateGrade 1 = "A+" ∧ calculateGrade (95/100) = "A+"
    ∧ calculateGrade (85/100) = "A" ∧ calculateGrade (70/100) = "B"
    ∧ calculateGrade (55/100) = "C" ∧ calculateGrade (40/100) = "D"
    ∧ calculateGrade (30/100) = "F" := by
  refine ⟨?_, fun w pr => rfl, scan_grade, ?_, ?_, ?_, ?_, ?_, ?_, ?_⟩
  · intro r
    unfold calculateGrade
    refine ⟨?_, ?_, ?_, ?_, ?_, ?_⟩ <;> intros <;> split_ifs <;> first | rfl | linarith
  all_goals norm_num [calculateGrade]

/-- Witness for C3 at concrete ratios with the hypotheses discharged. -/
theorem calculateGrade_thresholds_witness :
    calculateGrade (9/10) = "A" ∧ calculateGrade (6/10) = "C" := by
  constructor
  · exact (calculateGrade_thresholds.1 (9/10)).2.1 (by norm_num) (by norm_num)
  · exact (calculateGrade_thresholds.1 (6/10)).2.2.2.1 (by norm_num) (by norm_num)

/-! ### C4: display rounding never exceeds the weight -/

lemma round1_le (x w : ℚ) (n : ℤ) (hw : (n : ℚ) = 10 * w) (hx : x ≤ w) :
    round1 x ≤ w := by
  unfold round1 jsRound
  have h2 : ⌊x * 10 + 1/2⌋ ≤ ⌊w * 10 + 1/2⌋ := by
    apply Int.floor_le_floor; linarith
  have h3 : ⌊w * 10 + 1/2⌋ = n := by
    rw [show w * 10 + 1/2 = 1/2 + (n : ℚ) by rw [hw]; ring]
    rw [Int.floor_add_int]; norm_num
  have h4 : ((⌊x * 10 + 1/2⌋ : ℤ) : ℚ) ≤ (n : ℚ) := by
    exact_mod_cast h3 ▸ Int.cast_le.mpr h2
  rw [hw] at h4
  linarith

/-- Claim C4: for every enabled probe and every probe result with
`0 ≤ score ≤ maxScore` and `maxScore > 0`, the section score stored in the
report — the weight-normalized score rounded to one decimal — never
exceeds the probe's declared weight. -/
theorem section_rounding_le_weight (s : String × ℚ) (hs : s ∈ allScanners)
    (pr : ProbeResult) (h0 : 0 ≤ pr.score) (h1 : pr.score ≤ pr.maxScore)
    (h2 : 0 < pr.maxScore) :
    (mkSection s.2 pr).score ≤ s.2 := by
  have hdiv : pr.score / pr.maxScore ≤ 1 := (div_le_one h2).mpr h1
  have key : ∀ w : ℚ, 0 ≤ w → ∀ n : ℤ, (n : ℚ) = 10 * w →
      round1 (normalizedScore w pr) ≤ w := by
    intro w hw n hn
    have hnorm : normalizedScore w pr ≤ w := by
      unfold normalizedScore
      rw [if_pos h2]
      calc pr.score / pr.maxScore * w ≤ 1 * w :=
            mul_le_mul_of_nonneg_right hdiv hw
        _ = w := one_mul w
    exact round1_le _ _ n hn hnorm
  simp [allScanners] at hs
  rcases hs with rfl | rfl | rfl | rfl | rfl | rfl | rfl | rfl | rfl <;>
    [exact key 15 (by norm_num) 150 (by norm_num);
     exact key 20 (by norm_num) 200 (by norm_num);
     exact key 10 (by norm_num) 100 (by norm_num);
     exact key 8 (by norm_num) 80 (by norm_num);
     exact key 10 (by norm_num) 100 (by norm_num);
     exact key 7 (by norm_num) 70 (by norm_num);
     exact key 5 (by norm_num) 50 (by norm_num);
     exact key 5 (by norm_num) 50 (by norm_num);
     exact key 5 (by norm_num) 50 (by norm_num)]

/-- Witness for C4: the ssl probe with a raw 3-out-of-4 result. -/
theorem section_rounding_le_weight_witness :
    ("ssl", (20 : ℚ)) ∈ allScanners
    ∧ (mkSection 20 ⟨3, 4, []⟩).score ≤ 20 := by
  refine ⟨by decide, section_rounding_le_weight ("ssl", 20) (by decide)
    ⟨3, 4, []⟩ (by norm_num) (by norm_num) (by norm_num)⟩


/-! ### C1: probe failure isolation -/

/-- The single error finding the orchestrator synthesises for a failed
scanner. -/
def errFinding (n msg : String) : Check :=
  { name := n ++ " scan", status := "error", message := msg }

/-- The report section a failed scanner ends up with. -/
def errSection (n : String) (w : ℚ) (msg : String) : ScanSection :=
  { score := 0, maxScore := w, grade := "F", checks := [errFinding n msg] }

lemma normalizedScore_zero (w m : ℚ) (cks : List Check) :
    normalizedScore w ⟨0, m, cks⟩ = 0 := by
  unfold normalizedScore
  split <;> simp

lemma mkSection_err (n : String) (w : ℚ) (msg : String) :
    mkSection w (settleScanner (n, w) (.error msg)) = errSection n w msg := by
  show mkSection w ⟨0, w, [errFinding n msg]⟩ = errSection n w msg
  unfold mkSection errSection
  rw [normalizedScore_zero]
  have h1 : round1 0 = 0 := by norm_num [round1, jsRound]
  have h2 : calculateGrade (0 / w) = "F" := by
    rw [zero_div]; norm_num [calculateGrade]
  rw [h1, h2]

lemma filter_key_nil (l : List (String × ℚ)) (name : String)
    (F : String × ℚ → ScanSection) (h : name ∉ l.map Prod.fst) :
    (l.map (fun s => (s.1, F s))).filter (fun e => e.1 == name) = [] := by
  induction l with
  | nil => rfl
  | cons a l ih =>
    simp only [List.map_cons, List.mem_cons] at h ⊢
    push_neg at h
    rw [List.filter_cons]
    have : (a.1 == name) = false := by
      simp [beq_iff_eq]
      exact fun he => h.1 he.symm
    rw [this]
    simp only [Bool.false_eq_true, if_false]
    exact ih h.2

lemma filter_key_unique (l : List (String × ℚ)) (hnd : (l.map Prod.fst).Nodup)
    (name : String) (w : ℚ) (hmem : (name, w) ∈ l)
    (F : String × ℚ → ScanSection) :
    (l.map (fun s => (s.1, F s))).filter (fun e => e.1 == name)
      = [(name, F (name, w))] := by
  induction l with
  | nil => simp at hmem
  | cons a l ih =>
    simp only [List.map_cons, List.nodup_cons] at hnd
    rcases List.mem_cons.mp hmem with rfl | htail
    · rw [List.map_cons, List.filter_cons]
      simp only [beq_self_eq_true, if_true]
      rw [filter_key_nil l name F hnd.1]
    · have hne : (a.1 == name) = false := by
        simp [beq_iff_eq]
        intro he
        exact hnd.1 (he ▸ (List.mem_map_of_mem Prod.fst htail))
      rw [List.map_cons, List.filter_cons, hne]
      simp only [Bool.false_eq_true, if_false]
      exact ih hnd.2 htail

/-- Claim C1: an enabled probe whose run throws or times out (modelled as
an `.error` outcome) still yields exactly one section, keyed by its name,
with score 0, maxScore equal to its declared weight, and exactly one
finding of status `error`; the sibling sections survive (the number of
sections always equals the number of enabled probes) and the failure never
propagates to the caller of `scan`. -/
theorem scan_probe_isolation (tier : String) (full : Bool)
    (o : String → Except String ProbeResult) (name msg : String) (w : ℚ)
    (hmem : (name, w) ∈ enabledScanners tier full)
    (hout : o name = .error msg) :
    (scan tier full o).sections.filter (fun e => e.1 == name)
        = [(name, errSection name w msg)]
    ∧ (scan tier full o).sections.length = (enabledScanners tier full).length
    ∧ (errSection name w msg).checks.length = 1
    ∧ countStatus "error" (errSection name w msg).checks = 1
    ∧ scanWithConnectivity .response tier full o = .ok (scan tier full o) := by
  refine ⟨?_, ?_, rfl, ?_, rfl⟩
  · rw [scan_sections]
    rw [filter_key_unique (enabledScanners tier full) (enabled_keys_nodup tier full)
      name w hmem (fun s => mkSection s.2 (settleScanner s (o s.1)))]
    rw [show (name, w).1 = name from rfl, hout, mkSection_err]
  · rw [scan_sections, List.length_map]
  · simp [countStatus, errSection, errFinding]

/-- Witness for C1: the free tier with the ssl scanner rejecting. -/
theorem scan_probe_isolation_witness :
    (scan "free" false
        (fun n => if n == "ssl" then .error "socket hang up" else .ok ⟨1, 1, []⟩)).sections.filter
        (fun e => e.1 == "ssl")
      = [("ssl", errSection "ssl" 20 "socket hang up")]
    ∧ (scan "free" false
        (fun n => if n == "ssl" then .error "socket hang up" else .ok ⟨1, 1, []⟩)).sections.length
      = (enabledScanners "free" false).length := by
  have h := scan_probe_isolation "free" false
    (fun n => if n == "ssl" then .error "socket hang up" else .ok ⟨1, 1, []⟩)
    "ssl" "socket hang up" 20 (by decide) (by rfl)
  exact ⟨h.1, h.2.1⟩

/-! ### C9: connectivity preflight classification -/

/-- The spec's fatality condition for the preflight, written from the
spec's words: a timeout, or a request error whose code is one of the
low-level connection failures (name resolution failure `ENOTFOUND` /
`EAI_AGAIN`, connection refused `ECONNREFUSED`, connection reset
`ECONNRESET`, timeout `ETIMEDOUT`). -/
def specFatalEvent (ev : ReqEvent) : Bool :=
  match ev with
  | .response => false
  | .reqTimeout => true
  | .reqError c =>
      c == "ENOTFOUND" || c == "EAI_AGAIN" || c == "ECONNREFUSED"
        || c == "ECONNRESET" || c == "ETIMEDOUT"

lemma contains_eq_specFatal (c : String) :
    fatalCodes.contains c = specFatalEvent (.reqError c) := by
  by_cases h1 : c = "ENOTFOUND"
  · subst h1; decide
  by_cases h2 : c = "EAI_AGAIN"
  · subst h2; decide
  by_cases h3 : c = "ECONNREFUSED"
  · subst h3; decide
  by_cases h4 : c = "ETIMEDOUT"
  · subst h4; decide
  by_cases h5 : c = "ECONNRESET"
  · subst h5; decide
  have e1 : (c == "ENOTFOUND") = false := beq_eq_false_iff_ne.mpr h1
  have e2 : (c == "EAI_AGAIN") = false := beq_eq_false_iff_ne.mpr h2
  have e3 : (c == "ECONNREFUSED") = false := beq_eq_false_iff_ne.mpr h3
  have e4 : (c == "ETIMEDOUT") = false := beq_eq_false_iff_ne.mpr h4
  have e5 : (c == "ECONNRESET") = false := beq_eq_false_iff_ne.mpr h5
  simp only [fatalCodes, List.contains_eq_any_beq, List.any_cons, List.any_nil,
    specFatalEvent]
  rw [e1, e2, e3, e4, e5]
  decide

/-- Claim C9: the scan (preflight included) aborts with an error — before
any report is built — exactly when the preflight request fails with a
low-level connection error (name resolution failure, connection refused,
connection reset, or timeout); any other request event resolves, and the
scan then produces the full report with one section per enabled probe. -/
theorem preflight_fatal_classification (ev : ReqEvent) (tier : String)
    (full : Bool) (o : String → Except String ProbeResult) :
    ((∃ c, scanWithConnectivity ev tier full o = .error c)
        ↔ specFatalEvent ev = true)
    ∧ (specFatalEvent ev = false →
        scanWithConnectivity ev tier full o = .ok (scan tier full o)
        ∧ (scan tier full o).sections.length
            = (enabledScanners tier full).length) := by
  have hlen : (scan tier full o).sections.length
      = (enabledScanners tier full).length := by
    rw [scan_sections, List.length_map]
  cases ev with
  | response =>
    refine ⟨⟨?_, ?_⟩, fun _ => ⟨rfl, hlen⟩⟩
    · rintro ⟨c, hc⟩; cases hc
    · intro h; cases h
  | reqTimeout =>
    refine ⟨⟨fun _ => rfl, fun _ => ⟨"ETIMEDOUT", rfl⟩⟩, ?_⟩
    intro h; cases h
  | reqError c =>
    have hc := contains_eq_specFatal c
    have hfat : fatalCodes.contains c = true →
        scanWithConnectivity (.reqError c) tier full o = .error c := by
      intro h
      show (match checkConnectivity (.reqError c) with
        | .error e => (Except.error e : Except String Report)
        | .ok _ => .ok (scan tier full o)) = .error c
      have hcc : checkConnectivity (.reqError c) = .error c := by
        show (if fatalCodes.contains c = true then (Except.error c : Except String Unit)
          else .ok ()) = .error c
        rw [if_pos h]
      rw [hcc]
    have hok : fatalCodes.contains c = false →
        scanWithConnectivity (.reqError c) tier full o = .ok (scan tier full o) := by
      intro h
      show (match checkConnectivity (.reqError c) with
        | .error e => (Except.error e : Except String Report)
        | .ok _ => .ok (scan tier full o)) = .ok (scan tier full o)
      have hcc : checkConnectivity (.reqError c) = .ok () := by
        show (if fatalCodes.contains c = true then (Except.error c : Except String Unit)
          else .ok ()) = .ok ()
        rw [if_neg (by intro hh; rw [h] at hh; exact Bool.false_ne_true hh)]
      rw [hcc]
    by_cases hf : fatalCodes.contains c = true
    · have hs : specFatalEvent (.reqError c) = true := by rw [← hc]; exact hf
      refine ⟨⟨fun _ => hs, fun _ => ⟨c, hfat hf⟩⟩, ?_⟩
      intro h; rw [hs] at h; cases h
    · have hf' : fatalCodes.contains c = false := by
        rw [Bool.not_eq_true] at hf; exact hf
      have hs : specFatalEvent (.reqError c) = false := by rw [← hc]; exact hf'
      refine ⟨⟨?_, ?_⟩, fun _ => ⟨hok hf', hlen⟩⟩
      · rintro ⟨e, he⟩
        rw [hok hf'] at he
        cases he
      · intro h; rw [hs] at h; cases h

/-- Witness for C9: a TLS certificate error resolves, the full report is
produced. -/
theorem preflight_fatal_classification_witness :
    specFatalEvent (.reqError "DEPTH_ZERO_SELF_SIGNED_CERT") = false
    ∧ scanWithConnectivity (.reqError "DEPTH_ZERO_SELF_SIGNED_CERT") "pro" false
        (fun _ => .ok ⟨1, 1, []⟩)
      = .ok (scan "pro" false (fun _ => .ok ⟨1, 1, []⟩)) := by
  refine ⟨by decide, ?_⟩
  exact ((preflight_fatal_classification (.reqError "DEPTH_ZERO_SELF_SIGNED_CERT")
    "pro" false (fun _ => .ok ⟨1, 1, []⟩)).2 (by decide)).1

/-! ### C10: the summary counters ignore error findings -/

lemma countStatus_four_sum (l : List Check) :
    countStatus "pass" l + countStatus "warn" l + countStatus "fail" l
        + countStatus "info" l
      = l.countP (fun c => c.status == "pass" || c.status == "warn"
          || c.status == "fail" || c.status == "info") := by
  induction l with
  | nil => rfl
  | cons c l ih =>
    simp only [countStatus, List.countP_cons] at ih ⊢
    by_cases h1 : c.status = "pass"
    · simp [h1]; omega
    by_cases h2 : c.status = "warn"
    · simp [h2]; omega
    by_cases h3 : c.status = "fail"
    · simp [h3]; omega
    by_cases h4 : c.status = "info"
    · simp [h4]; omega
    have e1 := beq_eq_false_iff_ne.mpr h1
    have e2 := beq_eq_false_iff_ne.mpr h2
    have e3 := beq_eq_false_iff_ne.mpr h3
    have e4 := beq_eq_false_iff_ne.mpr h4
    simp [e1, e2, e3, e4]
    omega

lemma countStatus_err_map (st : String) (hne : st ≠ "error")
    (l : List (String × ℚ)) (msgs : String → String) :
    countStatus st
        ((l.map (fun s => (settleScanner s (.error (msgs s.1))).checks)).flatten)
      = 0 := by
  unfold countStatus
  rw [List.countP_eq_zero]
  intro c hc
  rw [List.mem_flatten] at hc
  obtain ⟨cks, hcks, hcmem⟩ := hc
  rw [List.mem_map] at hcks
  obtain ⟨s, _, rfl⟩ := hcks
  simp only [settleScanner, List.mem_singleton] at hcmem
  subst hcmem
  simpa [beq_iff_eq] using fun he => hne he.symm

lemma length_flatten_err (l : List (String × ℚ)) (msgs : String → String) :
    ((l.map (fun s => (settleScanner s (.error (msgs s.1))).checks)).flatten).length
      = l.length := by
  induction l with
  | nil => rfl
  | cons a l ih =>
    rw [List.map_cons, List.flatten_cons, List.length_append, ih]
    simp [settleScanner]
    omega

/-- Claim C10: findings with status `error` are counted in none of the
summary counters, so the four counters sum to the number of findings whose
status is pass/warn/fail/info — never more than the total number of
findings — and a scan in which every enabled probe errored reports
`passed = warnings = failed = info = 0` while still carrying one (error)
finding per enabled probe. -/
theorem summary_ignores_error_status (tier : String) (full : Bool)
    (o : String → Except String ProbeResult) (msgs : String → String) :
    ((scan tier full o).summary.passed + (scan tier full o).summary.warnings
        + (scan tier full o).summary.failed + (scan tier full o).summary.info
      = (allFindings (scan tier full o)).countP
          (fun c => c.status == "pass" || c.status == "warn"
            || c.status == "fail" || c.status == "info"))
    ∧ ((scan tier full o).summary.passed + (scan tier full o).summary.warnings
        + (scan tier full o).summary.failed + (scan tier full o).summary.info
      ≤ (allFindings (scan tier full o)).length)
    ∧ (scan tier full (fun n => .error (msgs n))).summary = ⟨0, 0, 0, 0⟩
    ∧ (allFindings (scan tier full (fun n => .error (msgs n)))).length
        = (enabledScanners tier full).length := by
  have hsum := scan_summary tier full o
  have hp : (scan tier full o).summary.passed
      = countStatus "pass" (allFindings (scan tier full o)) := by rw [hsum]
  have hw : (scan tier full o).summary.warnings
      = countStatus "warn" (allFindings (scan tier full o)) := by rw [hsum]
  have hf : (scan tier full o).summary.failed
      = countStatus "fail" (allFindings (scan tier full o)) := by rw [hsum]
  have hi : (scan tier full o).summary.info
      = countStatus "info" (allFindings (scan tier full o)) := by rw [hsum]
  refine ⟨?_, ?_, ?_, ?_⟩
  · rw [hp, hw, hf, hi]
    exact countStatus_four_sum _
  · rw [hp, hw, hf, hi, countStatus_four_sum]
    exact List.countP_le_length _
  · have h2 := scan_summary tier full (fun n => .error (msgs n))
    rw [h2, allFindings_scan]
    have hz : ∀ st : String, st ≠ "error" →
        countStatus st (((enabledScanners tier full).map
          (fun s => (settleScanner s (.error (msgs s.1))).checks)).flatten) = 0 :=
      fun st hst => countStatus_err_map st hst (enabledScanners tier full) msgs
    rw [hz "pass" (by decide), hz "warn" (by decide), hz "fail" (by decide),
      hz "info" (by decide)]
  · rw [allFindings_scan]
    exact length_flatten_err (enabledScanners tier full) msgs

/-! ### String-matching infrastructure for the scanners

The scanners work on JavaScript strings; we model them on `List Char`,
with ASCII lower-casing standing in for `toLowerCase()` / the `i` regex
flag (all strings involved in the claims are ASCII). -/

/-- ASCII lower-casing of one character. -/
def lcChar (c : Char) : Char :=
  if 65 ≤ c.toNat ∧ c.toNat ≤ 90 then Char.ofNat (c.toNat + 32) else c

/-- ASCII lower-casing of a character list. -/
def lcL (l : List Char) : List Char := l.map lcChar

/-- Is the first list an initial segment of the second? -/
def isPre : List Char → List Char → Bool
  | [], _ => true
  | _ :: _, [] => false
  | a :: as, b :: bs => a == b && isPre as bs

/-- Is the first list a final segment of the second
(JavaScript `String.prototype.endsWith`)? -/
def isSuf (s l : List Char) : Bool := isPre s.reverse l.reverse

/-- `String.prototype.split('.')` on a character list. -/
def splitD : List Char → List (List Char)
  | [] => [[]]
  | c :: rest =>
    if c = '.' then [] :: splitD rest
    else
      match splitD rest with
      | [] => [[c]]
      | g :: gs => (c :: g) :: gs

/-- `matchesDomain` of src/scanners/ssl.js on character lists: an empty
pattern never matches; otherwise both sides are lower-cased, an exact
match succeeds, and a `*.`-pattern matches when the hostname ends with the
suffix and has the same number of dot-separated labels as the pattern. -/
def matchesDomainL (pattern hostname : List Char) : Bool :=
  if pattern.isEmpty then false
  else if lcL pattern == lcL hostname then true
  else if isPre ['*', '.'] (lcL pattern) then
    isSuf ((lcL pattern).drop 2) (lcL hostname)
      && ((splitD (lcL hostname)).length == (splitD (lcL pattern)).length)
  else false

/-- `matchesDomain` of src/scanners/ssl.js. -/
def matchesDomain (pattern hostname : String) : Bool :=
  matchesDomainL pattern.data hostname.data

lemma isPre_self_append (p r : List Char) : isPre p (p ++ r) = true := by
  induction p with
  | nil => rfl
  | cons a as ih => simp [isPre, ih]

lemma isSuf_append_self (t s : List Char) : isSuf s (t ++ s) = true := by
  unfold isSuf
  rw [List.reverse_append]
  exact isPre_self_append s.reverse t.reverse

lemma splitD_star_dot (l : List Char) :
    splitD ('*' :: '.' :: l) = ['*'] :: splitD l := rfl

lemma lcL_star_dot (l : List Char) :
    lcL ('*' :: '.' :: l) = '*' :: '.' :: lcL l := rfl

/-! ### C5: wildcard certificate matching -/

/-- The condition of claim C5, written from the spec's words: the hostname
has exactly one extra label beyond `<suffix>`, i.e. it is
`<label>.<suffix>` for a single non-empty dot-free label. -/
def oneExtraLabel (suffix hostname : List Char) : Bool :=
  let k := hostname.length - (suffix.length + 1)
  (hostname.drop k == '.' :: suffix) && 0 < k
    && (hostname.take k).all (fun c => !(c == '.'))

/-- Counterexample to claim C5 as stated: `matchesDomain` accepts
`a.bexample.com` for `*.example.com` — the raw `endsWith` test is not
label-aligned and the label counts agree (3 = 3) — although
`a.bexample.com` is not `<label>.example.com`, so it does not have exactly
one extra label beyond the suffix. -/
theorem matchesDomain_crossLabel_cex :
    matchesDomain "*.example.com" "a.bexample.com" = true
    ∧ oneExtraLabel "example.com".data "a.bexample.com".data = false := by
  constructor
  · decide
  · decide

/-- Claim C5, amended: `matchesDomain` accepts a hostname for a wildcard
pattern `*.<suffix>` only when the lower-cased hostname ends with the
character string `<suffix>` and has exactly one more dot-separated label
than the suffix (so cross-level hostnames are rejected, but the suffix
match need not be label-aligned); in particular `*.example.com` matches
`www.example.com` and matches neither `a.b.example.com` (cross-level) nor
the bare `example.com`. -/
theorem matchesDomain_wildcard_one_label :
    (∀ (suffix hostname : List Char),
      matchesDomainL ('*' :: '.' :: suffix) hostname = true →
        (splitD (lcL hostname)).length = (splitD (lcL suffix)).length + 1
        ∧ isSuf (lcL suffix) (lcL hostname) = true)
    ∧ matchesDomain "*.example.com" "www.example.com" = true
    ∧ matchesDomain "*.example.com" "a.b.example.com" = false
    ∧ matchesDomain "*.example.com" "example.com" = false := by
  refine ⟨?_, by decide, by decide, by decide⟩
  intro suffix hostname hm
  unfold matchesDomainL at hm
  rw [lcL_star_dot] at hm
  simp only [List.isEmpty_cons, Bool.false_eq_true, if_false] at hm
  by_cases heq : ('*' :: '.' :: lcL suffix == lcL hostname) = true
  · have he : '*' :: '.' :: lcL suffix = lcL hostname := eq_of_beq heq
    constructor
    · rw [← he, splitD_star_dot, List.length_cons]
    · rw [← he]
      exact isSuf_append_self ['*', '.'] (lcL suffix)
  · rw [if_neg heq] at hm
    rw [if_pos (show isPre ['*', '.'] ('*' :: '.' :: lcL suffix) = true from rfl)] at hm
    rw [Bool.and_eq_true] at hm
    obtain ⟨hsuf, hlen⟩ := hm
    have hlen' : (splitD (lcL hostname)).length
        = (splitD ('*' :: '.' :: lcL suffix)).length := beq_iff_eq.mp hlen
    rw [splitD_star_dot, List.length_cons] at hlen'
    exact ⟨hlen', hsuf⟩

/-- Witness for C5's universal part at the spec's own example. -/
theorem matchesDomain_wildcard_one_label_witness :
    (splitD (lcL "www.example.com".data)).length
        = (splitD (lcL "example.com".data)).length + 1
    ∧ isSuf (lcL "example.com".data) (lcL "www.example.com".data) = true :=
  matchesDomain_wildcard_one_label.1 "example.com".data "www.example.com".data
    (by decide)

/-! ### The exposed-files response classifier (src/scanners/exposed-files.js) -/

/-- All suffixes of a list (used to search for a match at any position). -/
def tailsL : List Char → List (List Char)
  | [] => [[]]
  | c :: cs => (c :: cs) :: tailsL cs

/-- Substring test (JavaScript `String.prototype.includes` /
an un-anchored literal regex). -/
def containsSub (sub l : List Char) : Bool := (tailsL l).any (fun t => isPre sub t)

/-- Characters matched by an unflagged JavaScript regex `.`
(everything except line terminators). -/
def dotChar (c : Char) : Bool :=
  !(c == '\n' || c == '\r' || c == ' ' || c == ' ')

/-- Matches `X*` followed by a continuation: some (possibly empty) run of
characters satisfying `ok`, after which `k` accepts the rest. -/
def starThen (ok : Char → Bool) (k : List Char → Bool) : List Char → Bool
  | [] => k []
  | c :: cs => k (c :: cs) || (ok c && starThen ok k cs)

/-- The alternation group of the soft-404 `<title>` regex, lower-cased. -/
def titleMarkers : List (List Char) :=
  ["404".data, "not found".data, "page not found".data, "error".data,
   "oops".data, "doesn\x27t exist".data]

/-- `/<title>.*(?:404|not found|page not found|error|oops|doesn't
exist).*<\/title>/i` applied to the lower-cased body. -/
def regexTitle404 (lb : List Char) : Bool :=
  (tailsL lb).any (fun t =>
    isPre "<title>".data t &&
    starThen dotChar (fun r => titleMarkers.any (fun m =>
      isPre m r &&
        starThen dotChar (fun r2 => isPre "</title>".data r2) (r.drop m.length)))
      (t.drop 7))

/-- The alternation group of the soft-404 `<h1>` regex, lower-cased. -/
def h1Markers : List (List Char) :=
  ["404".data, "not found".data, "page not found".data]

/-- `/<h1>.*(?:404|not found|page not found).*<\/h1>/i` applied to the
lower-cased body. -/
def regexH1404 (lb : List Char) : Bool :=
  (tailsL lb).any (fun t =>
    isPre "<h1>".data t &&
    starThen dotChar (fun r => h1Markers.any (fun m =>
      isPre m r &&
        starThen dotChar (fun r2 => isPre "</h1>".data r2) (r.drop m.length)))
      (t.drop 4))

/-- `/<(!DOCTYPE|html|head|body)/i` applied to the lower-cased body. -/
def isHtmlResponse (lb : List Char) : Bool :=
  ["<!doctype".data, "<html".data, "<head".data, "<body".data].any
    (fun p => containsSub p lb)

/-- `/[A-Z_]+=/` (case-sensitive): some uppercase-or-underscore character
immediately followed by `=`. -/
def envKeyEq : List Char → Bool
  | a :: b :: rest =>
    (((65 ≤ a.toNat && a.toNat ≤ 90) || a == '_') && b == '=')
      || envKeyEq (b :: rest)
  | _ => false

/-- `/<form[^>]*wp-login/i` applied to the lower-cased body. -/
def formWpLogin (lb : List Char) : Bool :=
  (tailsL lb).any (fun t =>
    isPre "<form".data t &&
    starThen (fun c => !(c == '>')) (fun r => isPre "wp-login".data r) (t.drop 5))

/-- The `nonHtmlFiles` list of `validateResponse`. -/
def nonHtmlFiles : List String :=
  ["/.env", "/.git/HEAD", "/.git/config", "/.htaccess", "/backup.sql",
   "/dump.sql", "/db.sql", "/.DS_Store", "/composer.json", "/package.json",
   "/Gruntfile.js", "/Dockerfile", "/docker-compose.yml", "/.dockerenv",
   "/config.php", "/wp-config.php.bak", "/.npmrc", "/.aws/credentials",
   "/debug.log", "/error.log", "/access.log", "/.vscode/settings.json"]

/-- The `adminPaths` list of `validateResponse`. -/
def adminPaths : List String :=
  ["/wp-admin/", "/wp-login.php", "/phpmyadmin/", "/adminer.php",
   "/server-status", "/elmah.axd"]

/-- The admin-panel fingerprint block of `validateResponse`: each inner
`if` that returns 404, folded into one disjunction (the conditions are
side-effect free). `pathStr` keeps its original case, the body tests are
case-insensitive. -/
def adminReject (lb : List Char) (pathStr : String) : Bool :=
  (containsSub "wp-admin".data pathStr.data
      && !(containsSub "wp-login".data lb || containsSub "wordpress".data lb))
  || (containsSub "wp-login".data pathStr.data && !(formWpLogin lb))
  || (containsSub "phpmyadmin".data pathStr.data
      && !(containsSub "phpmyadmin".data lb || containsSub "pma_".data lb))
  || (containsSub "adminer".data pathStr.data && !(containsSub "adminer".data lb))
  || (containsSub "server-status".data pathStr.data
      && !(containsSub "server version".data lb || containsSub "apache".data lb))
  || (containsSub "elmah".data pathStr.data
      && !(containsSub "elmah".data lb || containsSub "error log".data lb))

/-- `validateResponse` of src/scanners/exposed-files.js: converts a raw
(status, body) pair into an effective status (404 for false positives). -/
def validateResponse (statusCode : Nat) (body pathStr : String) : Nat :=
  if statusCode < 200 ∨ 300 ≤ statusCode then statusCode
  else if body.data.length < 5 then 404
  else if regexTitle404 (lcL body.data) then 404
  else if regexH1404 (lcL body.data) then 404
  else if isHtmlResponse (lcL body.data) && nonHtmlFiles.contains pathStr then 404
  else if isHtmlResponse (lcL body.data) && adminPaths.contains pathStr
      && adminReject (lcL body.data) pathStr then 404
  else if pathStr == "/.env" && !envKeyEq body.data then 404
  else if pathStr == "/.git/HEAD" && !containsSub "ref:".data body.data then 404
  else if pathStr == "/.git/config"
      && !(containsSub "[core]".data body.data
        || containsSub "[remote".data body.data) then 404
  else if pathStr == "/composer.json"
      && !containsSub "\"require\"".data body.data then 404
  else if pathStr == "/package.json"
      && !(containsSub "\"name\"".data body.data
        || containsSub "\"version\"".data body.data) then 404
  else if pathStr == "/Dockerfile"
      && !(containsSub "from ".data (lcL body.data)
        || containsSub "run ".data (lcL body.data)
        || containsSub "cmd ".data (lcL body.data)) then 404
  else if pathStr == "/docker-compose.yml"
      && !(containsSub "services:".data (lcL body.data)
        || containsSub "version:".data (lcL body.data)) then 404
  else statusCode

/-! ### C6: the generic soft-404 title downgrades every path -/

/-- Claim C6: a 200 response whose body is `<title>404 Not Found</title>`
is classified with effective status 404 whatever the probed path (the
catalog paths included). -/
theorem validateResponse_soft404_title (p : String) :
    validateResponse 200 "<title>404 Not Found</title>" p = 404 := by
  unfold validateResponse
  rw [if_neg (by norm_num)]
  rw [if_neg (show ¬("<title>404 Not Found</title>".data.length < 5) by decide)]
  rw [if_pos (show regexTitle404 (lcL "<title>404 Not Found</title>".data) = true by decide)]

/-! ### C7: .env content fingerprint -/

/-- Claim C7: a 200 response for `/.env` whose body is the plain-text
`FOO=bar\nBAZ=qux` (a KEY=VALUE pattern) keeps effective status 200
(exposed), while any HTML body for the same path and status is downgraded
to effective status 404. -/
theorem validateResponse_env_classification :
    validateResponse 200 "FOO=bar\nBAZ=qux" "/.env" = 200
    ∧ (∀ body : String, isHtmlResponse (lcL body.data) = true →
        validateResponse 200 body "/.env" = 404) := by
  constructor
  · decide
  · intro body hh
    unfold validateResponse
    rw [if_neg (by norm_num)]
    by_cases hlen : body.data.length < 5
    · rw [if_pos hlen]
    · rw [if_neg hlen]
      by_cases ht : regexTitle404 (lcL body.data) = true
      · rw [if_pos ht]
      · rw [if_neg ht]
        by_cases hh1 : regexH1404 (lcL body.data) = true
        · rw [if_pos hh1]
        · rw [if_neg hh1]
          rw [if_pos (show (isHtmlResponse (lcL body.data)
              && nonHtmlFiles.contains "/.env") = true by rw [hh]; decide)]

/-- Witness for C7's universal HTML part at a concrete catch-all page. -/
theorem validateResponse_env_classification_witness :
    validateResponse 200 "<html><body>hello</body></html>" "/.env" = 404 :=
  validateResponse_env_classification.2 "<html><body>hello</body></html>"
    (by decide)

/-! ### The exposed-files scanner (src/scanners/exposed-files.js) -/

/-- One entry of the `SENSITIVE_PATHS` catalog. -/
structure PathEntry where
  path : String
  name : String
  severity : String
  description : String
deriving DecidableEq, Repr

/-- The `SENSITIVE_PATHS` catalog of src/scanners/exposed-files.js. -/
def SENSITIVE_PATHS : List PathEntry :=
  [⟨"/.env", ".env file", "critical", "Environment variables (may contain secrets, API keys, passwords)"⟩,
   ⟨"/.git/HEAD", ".git directory", "critical", "Git repository exposed — full source code and history accessible"⟩,
   ⟨"/.git/config", ".git config", "critical", "Git configuration with potential remote URLs and credentials"⟩,
   ⟨"/.svn/entries", ".svn directory", "high", "Subversion repository exposed"⟩,
   ⟨"/.htaccess", ".htaccess", "medium", "Apache configuration file — reveals server setup"⟩,
   ⟨"/wp-admin/", "WordPress Admin", "medium", "WordPress admin panel exposed"⟩,
   ⟨"/wp-login.php", "WordPress Login", "low", "WordPress login page"⟩,
   ⟨"/phpinfo.php", "PHP Info", "high", "PHP configuration disclosure"⟩,
   ⟨"/server-status", "Server Status", "high", "Apache server status page"⟩,
   ⟨"/elmah.axd", "ELMAH Log", "high", ".NET error log viewer"⟩,
   ⟨"/backup.sql", "SQL Backup", "critical", "Database backup file"⟩,
   ⟨"/dump.sql", "SQL Dump", "critical", "Database dump file"⟩,
   ⟨"/db.sql", "Database File", "critical", "Database file"⟩,
   ⟨"/.DS_Store", ".DS_Store", "low", "macOS directory metadata — reveals file/folder names"⟩,
   ⟨"/crossdomain.xml", "crossdomain.xml", "low", "Flash cross-domain policy (may be overly permissive)"⟩,
   ⟨"/composer.json", "composer.json", "high", "PHP dependency manifest — reveals packages and versions"⟩,
   ⟨"/package.json", "package.json", "medium", "Node.js dependency manifest — reveals packages and versions"⟩,
   ⟨"/Gruntfile.js", "Gruntfile.js", "medium", "Build tool configuration exposed"⟩,
   ⟨"/Dockerfile", "Dockerfile", "high", "Docker configuration — reveals infrastructure details"⟩,
   ⟨"/docker-compose.yml", "docker-compose.yml", "critical", "Docker Compose — may contain service passwords and configs"⟩,
   ⟨"/.dockerenv", ".dockerenv", "medium", "Running inside Docker container"⟩,
   ⟨"/web.config", "web.config", "high", "IIS configuration — reveals server setup and potential credentials"⟩,
   ⟨"/config.php", "config.php", "critical", "PHP configuration file — likely contains database credentials"⟩,
   ⟨"/wp-config.php.bak", "wp-config.php.bak", "critical", "WordPress config backup — contains database credentials in plaintext"⟩,
   ⟨"/.npmrc", ".npmrc", "critical", "npm config — may contain auth tokens"⟩,
   ⟨"/.aws/credentials", "AWS credentials", "critical", "AWS credential file exposed"⟩,
   ⟨"/debug.log", "debug.log", "high", "Debug log — may contain stack traces and sensitive data"⟩,
   ⟨"/error.log", "error.log", "high", "Error log — may contain stack traces and paths"⟩,
   ⟨"/access.log", "access.log", "medium", "Access log — reveals visitor IPs and paths"⟩,
   ⟨"/.vscode/settings.json", "VS Code settings", "low", "IDE settings exposed — reveals development environment"⟩,
   ⟨"/adminer.php", "Adminer", "critical", "Database admin tool exposed to the internet"⟩,
   ⟨"/phpmyadmin/", "phpMyAdmin", "critical", "Database admin panel exposed to the internet"⟩,
   ⟨"/.well-known/security.txt", "security.txt", "info", "Security contact information"⟩,
   ⟨"/robots.txt", "robots.txt", "info", "Robots exclusion — may reveal hidden paths"⟩,
   ⟨"/sitemap.xml", "sitemap.xml", "info", "Site map — reveals site structure"⟩,
   ⟨"/humans.txt", "humans.txt", "info", "Team information file"⟩]

/-- `result.status >= 200 && result.status < 300` (status 0 = connection
failure). -/
def isExposedStatus (st : Nat) : Bool := decide (200 ≤ st ∧ st < 300)

/-- The severities that are scored (`critical`, `high`, `medium`). -/
def scoredSeverity (e : PathEntry) : Bool :=
  e.severity == "critical" || e.severity == "high" || e.severity == "medium"

/-- The checks one catalog entry contributes in the result loop of
`scanExposedFiles` (info/low entries report only when found; scored
entries report when exposed). -/
def checkOf (r : PathEntry × Nat) : List Check :=
  if r.1.severity == "info" then
    if isExposedStatus r.2 then
      [{ name := r.1.name, status := "info",
         message := "Found (" ++ toString r.2 ++ ") — " ++ r.1.description,
         value := some r.1.path }]
    else []
  else if r.1.severity == "low" then
    if isExposedStatus r.2 then
      [{ name := r.1.name, status := "info",
         message := "Found (" ++ toString r.2 ++ ") — " ++ r.1.description,
         value := some r.1.path }]
    else []
  else if isExposedStatus r.2 then
    if r.1.severity == "critical" then
      [{ name := r.1.name, status := "fail",
         message := "🚨 EXPOSED (" ++ toString r.2 ++ ") — " ++ r.1.description,
         value := some r.1.path }]
    else if r.1.severity == "high" then
      [{ name := r.1.name, status := "fail",
         message := "⚠️ EXPOSED (" ++ toString r.2 ++ ") — " ++ r.1.description,
         value := some r.1.path }]
    else if r.1.severity == "medium" then
      [{ name := r.1.name, status := "warn",
         message := "Accessible (" ++ toString r.2 ++ ") — " ++ r.1.description,
         value := some r.1.path }]
    else []
  else []

/-- The score one catalog entry contributes: +0.5 for an exposed medium
path, +1 for a scored path that answered (status > 0) and is not exposed. -/
def scoreOf (r : PathEntry × Nat) : ℚ :=
  if r.1.severity == "info" then 0
  else if r.1.severity == "low" then 0
  else if isExposedStatus r.2 then (if r.1.severity == "medium" then 1/2 else 0)
  else if 0 < r.2 then 1
  else 0

/-- The reliability-guard finding of `scanExposedFiles`. -/
def reliabilityCheck : Check :=
  { name := "Exposed Files", status := "error",
    message := "Most path checks failed to connect — results may be unreliable" }

/-- `scanExposedFiles` of src/scanners/exposed-files.js, parameterised by
the effective status each catalog path resolved to (`0` = the connection
failed). -/
def scanExposedFiles (statuses : List Nat) : ProbeResult :=
  let results := SENSITIVE_PATHS.zip statuses
  let base := (results.map checkOf).flatten
  let withRel :=
    if ((results.countP (fun r => r.2 == 0) : ℚ)
        > ((results.filter (fun r => !(r.1.severity == "info"))).length : ℚ)
          * (8/10))
    then reliabilityCheck :: base else base
  let exposedCritical :=
    results.countP (fun r => r.1.severity == "critical" && isExposedStatus r.2)
  let exposedHigh :=
    results.countP (fun r => r.1.severity == "high" && isExposedStatus r.2)
  let headCheck :=
    if exposedCritical == 0 && exposedHigh == 0 then
      ({ name := "Sensitive Files", status := "pass",
         message := "No critical or high-severity files exposed" } : Check)
    else
      { name := "Sensitive Files", status := "fail",
        message := toString exposedCritical ++ " critical, "
          ++ toString exposedHigh ++ " high-severity files exposed!" }
  { score := (results.map scoreOf).sum,
    maxScore := ((SENSITIVE_PATHS.filter scoredSeverity).length : ℚ),
    checks := headCheck :: withRel }

/-! ### C8: the reliability guard threshold -/

/-- The claim's notion of failing scored checks: catalog paths of
critical/high/medium severity whose check failed to connect. -/
def scoredConnectionFailures (statuses : List Nat) : Nat :=
  ((SENSITIVE_PATHS.zip statuses).filter
    (fun r => scoredSeverity r.1 && r.2 == 0)).length

/-- The number of scored paths in the catalog (28). -/
def scoredPathCount : Nat := (SENSITIVE_PATHS.filter scoredSeverity).length

/-- A status assignment where exactly 23 of the 28 scored paths fail to
connect (23/28 > 80%) and every other path answers 404. -/
def cexStatuses : List Nat :=
  [0, 0, 0, 0, 0, 0, 404, 0, 0, 0, 0, 0, 0, 404, 404, 0, 0, 0, 0, 0, 0, 0,
   0, 0, 0, 0, 404, 404, 404, 404, 404, 404, 404, 404, 404, 404]

/-- Counterexample to C8 as stated: over 80% of the *scored* checks
(23 of 28) fail to connect, yet the scanner emits no error finding,
because the code compares the failure count against 80% of all non-info
checks (32, threshold 25.6) and counts failures over the whole catalog. -/
theorem exposedFiles_reliability_guard_cex :
    (scoredConnectionFailures cexStatuses : ℚ) > (scoredPathCount : ℚ) * (8/10)
    ∧ reliabilityCheck ∉ (scanExposedFiles cexStatuses).checks := by
  constructor
  · have h1 : scoredConnectionFailures cexStatuses = 23 := by decide
    have h2 : scoredPathCount = 28 := by decide
    rw [h1, h2]; norm_num
  · have hcond : ¬((((SENSITIVE_PATHS.zip cexStatuses).countP
        (fun r => r.2 == 0)) : ℚ)
        > (((SENSITIVE_PATHS.zip cexStatuses).filter
            (fun r => !(r.1.severity == "info"))).length : ℚ) * (8/10)) := by
      have h1 : (SENSITIVE_PATHS.zip cexStatuses).countP (fun r => r.2 == 0)
          = 23 := by decide
      have h2 : ((SENSITIVE_PATHS.zip cexStatuses).filter
          (fun r => !(r.1.severity == "info"))).length = 32 := by decide
      rw [h1, h2]; norm_num
    simp only [scanExposedFiles]
    rw [if_neg hcond]
    decide

/-- C8 as amended: when the number of connection failures across the whole
catalog exceeds 80% of the number of non-info checks, the scanner does
emit the unreliable-results error finding. -/
theorem exposedFiles_reliability_guard (statuses : List Nat)
    (h : (((SENSITIVE_PATHS.zip statuses).countP (fun r => r.2 == 0)) : ℚ)
        > (((SENSITIVE_PATHS.zip statuses).filter
            (fun r => !(r.1.severity == "info"))).length : ℚ) * (8/10)) :
    reliabilityCheck ∈ (scanExposedFiles statuses).checks := by
  simp only [scanExposedFiles]
  rw [if_pos h]
  exact List.mem_cons_of_mem _ (List.mem_cons_self _ _)

/-- Witness for C8 (amended): every path failing to connect trips the
guard. -/
theorem exposedFiles_reliability_guard_witness :
    reliabilityCheck ∈ (scanExposedFiles (List.replicate 36 0)).checks := by
  apply exposedFiles_reliability_guard
  have h1 : (SENSITIVE_PATHS.zip (List.replicate 36 0)).countP
      (fun r => r.2 == 0) = 36 := by decide
  have h2 : ((SENSITIVE_PATHS.zip (List.replicate 36 0)).filter
      (fun r => !(r.1.severity == "info"))).length = 32 := by decide
  rw [h1, h2]; norm_num

end MpxScan
